import Mathlib

/-!
Verification development for the bookstoscrape repository.

Shallow embedding of the change-detection subsystem
(`app/crawler/change_detector.py`, `app/crawler/utils.py`,
`app/database/book_repository.py`, `app/database/change_log_repository.py`)
and of the crawler (`app/crawler/crawler.py`).

Modelling conventions:
* Python floats (prices) are modelled as rationals `ℚ`; the price tolerance
  `0.01` is the exact rational `1/100`.
* `datetime.utcnow()` timestamps are modelled as an explicit `now : Nat`
  argument; `uuid4()` identifiers as an explicit `newId : String` argument.
* The Mongo collection `database.books` is a `List Book`; `find_one` is
  `List.find?` (first match), `update_one`/`$set` updates the first matching
  document, `insert_one` appends.
* `generate_data_hash` (SHA-256 of the sorted-key JSON dump of the five
  significant fields) is modelled as the record of those five field values
  itself: two dicts receive equal hashes exactly when their significant
  fields serialize equally; SHA-256 collisions are disregarded.
* Python dicts of heterogeneous values (`model_dump`, `old_values`,
  `new_values`) are association lists `List (String × FieldValue)`.
* pydantic model construction validates arguments against their annotations:
  `ChangeLogCreate.changed_fields` is annotated `Dict[str, Any]`, so its
  construction is modelled as a fallible function that accepts a dict value
  and raises (`Except.error`, the ValidationError) on a list value.
-/

set_option autoImplicit false

namespace Scrape

/-- One Python value occurring in a book dict / change-log dict. -/
inductive FieldValue where
  | str (s : String)
  | optStr (s : Option String)
  | rat (q : ℚ)
  | nat (n : Nat)
deriving DecidableEq

/-- `BookCreate` (app/models/book.py): the record extracted for one book page. -/
structure BookCreate where
  name : String
  description : Option String
  category : String
  price_including_tax : ℚ
  price_excluding_tax : ℚ
  availability : String
  number_of_reviews : Nat
  image_url : Option String
  rating : Nat
  source_url : String
  raw_html : Option String
deriving DecidableEq

/-- `BookCreate.model_dump()`: the dict of all fields of the record. -/
def bookCreateDump (b : BookCreate) : List (String × FieldValue) :=
  [ ("name", FieldValue.str b.name)
  , ("description", FieldValue.optStr b.description)
  , ("category", FieldValue.str b.category)
  , ("price_including_tax", FieldValue.rat b.price_including_tax)
  , ("price_excluding_tax", FieldValue.rat b.price_excluding_tax)
  , ("availability", FieldValue.str b.availability)
  , ("number_of_reviews", FieldValue.nat b.number_of_reviews)
  , ("image_url", FieldValue.optStr b.image_url)
  , ("rating", FieldValue.nat b.rating)
  , ("source_url", FieldValue.str b.source_url)
  , ("raw_html", FieldValue.optStr b.raw_html) ]

/-- `dict.get(key, default)` on an association list. -/
def dictGet (d : List (String × FieldValue)) (k : String) (dflt : FieldValue) :
    FieldValue :=
  match d.find? (fun kv => kv.1 == k) with
  | some kv => kv.2
  | none => dflt

/-- The significant-field record serialized by `generate_data_hash`
(keys in `json.dumps(..., sort_keys=True)` order). -/
structure SigFields where
  availability : FieldValue
  name : FieldValue
  price_excluding_tax : FieldValue
  price_including_tax : FieldValue
  rating : FieldValue
deriving DecidableEq

/-- `generate_data_hash` (app/crawler/utils.py): SHA-256 over the sorted-key
JSON dump of the five significant fields, modelled as the record of those
field values (hash equality = equality of the serialized significant fields). -/
def generate_data_hash (data : List (String × FieldValue)) : SigFields :=
  { availability := dictGet data "availability" (FieldValue.str "")
  , name := dictGet data "name" (FieldValue.str "")
  , price_excluding_tax := dictGet data "price_excluding_tax" (FieldValue.rat 0)
  , price_including_tax := dictGet data "price_including_tax" (FieldValue.rat 0)
  , rating := dictGet data "rating" (FieldValue.nat 0) }

/-- `Book` (app/models/book.py): a persisted book document. -/
structure Book where
  id : String
  name : String
  description : Option String
  category : String
  price_including_tax : ℚ
  price_excluding_tax : ℚ
  availability : String
  number_of_reviews : Nat
  image_url : Option String
  rating : Nat
  source_url : String
  crawl_timestamp : Nat
  status : String
  raw_html : Option String
  data_hash : SigFields
deriving DecidableEq

/-- The significant-field record of the current fields of a persisted book itself. -/
def sigOfBook (b : Book) : SigFields :=
  { availability := FieldValue.str b.availability
  , name := FieldValue.str b.name
  , price_excluding_tax := FieldValue.rat b.price_excluding_tax
  , price_including_tax := FieldValue.rat b.price_including_tax
  , rating := FieldValue.nat b.rating }

/-- The book document built by `BookRepository.upsert_by_url` from a
`BookCreate` dump plus `crawl_timestamp`, `status = "active"`, `data_hash`. -/
def bookFromCreate (data : BookCreate) (id : String) (now : Nat) : Book :=
  { id := id
  , name := data.name
  , description := data.description
  , category := data.category
  , price_including_tax := data.price_including_tax
  , price_excluding_tax := data.price_excluding_tax
  , availability := data.availability
  , number_of_reviews := data.number_of_reviews
  , image_url := data.image_url
  , rating := data.rating
  , source_url := data.source_url
  , crawl_timestamp := now
  , status := "active"
  , raw_html := data.raw_html
  , data_hash := generate_data_hash (bookCreateDump data) }

/-- A Python value handed to the `changed_fields` argument of
`ChangeLogCreate`: a dict (as the annotation demands) or a list (as the
changed branch of `process_book` actually passes). -/
inductive PyVal where
  | pyDict (entries : List (String × FieldValue))
  | pyList (items : List String)
deriving DecidableEq

/-- pydantic validation of a `Dict[str, Any]`-annotated field: a dict value
passes through, a list value raises a ValidationError. -/
def validateDict : PyVal → Except String (List (String × FieldValue))
  | PyVal.pyDict entries => Except.ok entries
  | PyVal.pyList _ => Except.error "ValidationError"

/-- `ChangeLogCreate` (app/models/change_log.py); `changed_fields`,
`old_values` and `new_values` are `Dict[str, Any]` fields. -/
structure ChangeLogCreate where
  book_id : String
  changed_fields : List (String × FieldValue)
  old_values : List (String × FieldValue)
  new_values : List (String × FieldValue)
  change_type : String
deriving DecidableEq

/-- `ChangeLogCreate(...)`: pydantic model construction, validating the
`changed_fields` argument against its `Dict[str, Any]` annotation (the other
arguments are dicts at both call sites and always validate). -/
def mkChangeLogCreate (book_id : String) (changed_fields : PyVal)
    (old_values new_values : List (String × FieldValue))
    (change_type : String) : Except String ChangeLogCreate :=
  match validateDict changed_fields with
  | Except.ok cf =>
    Except.ok
      { book_id := book_id, changed_fields := cf, old_values := old_values
      , new_values := new_values, change_type := change_type }
  | Except.error e => Except.error e

/-- `BookRepository.get_by_url`: `find_one({"source_url": url})`. -/
def get_by_url (books : List Book) (url : String) : Option Book :=
  books.find? (fun b => b.source_url == url)

/-- `update_one(filter, {"$set": fields})`: update the first matching document. -/
def updateFirst (p : Book → Bool) (f : Book → Book) : List Book → List Book
  | [] => []
  | b :: bs => if p b then f b :: bs else b :: updateFirst p f bs

/-- `BookRepository.update(book_id, {"crawl_timestamp": now})`: the repository
adds `crawl_timestamp` to every update, so the effective `$set` refreshes only
the crawl timestamp of the first document with this id. -/
def update_crawl_timestamp (books : List Book) (id : String) (now : Nat) :
    List Book :=
  updateFirst (fun b => b.id == id) (fun b => { b with crawl_timestamp := now }) books

/-- `BookRepository.update(book_id, model_dump + data_hash)`: `$set` of every
`BookCreate` field plus `data_hash` plus the repository-added `crawl_timestamp`
on the first document with this id (`id` and `status` are not in the dict and
keep their stored values). -/
def applyFull (data : BookCreate) (hash : SigFields) (now : Nat) (b : Book) :
    Book :=
  { b with
    name := data.name
    description := data.description
    category := data.category
    price_including_tax := data.price_including_tax
    price_excluding_tax := data.price_excluding_tax
    availability := data.availability
    number_of_reviews := data.number_of_reviews
    image_url := data.image_url
    rating := data.rating
    source_url := data.source_url
    raw_html := data.raw_html
    data_hash := hash
    crawl_timestamp := now }

/-- The full update applied to the first document with the given id. -/
def update_full (books : List Book) (id : String) (data : BookCreate)
    (hash : SigFields) (now : Nat) : List Book :=
  updateFirst (fun b => b.id == id) (applyFull data hash now) books

/-- `BookRepository.upsert_by_url`: build the full document (dump plus
timestamp, `status = "active"`, fresh `data_hash`); replace the first document
with this `source_url` if one exists (keeping its id), else insert with a fresh
id. Returns the document and the new collection. -/
def upsert_by_url (books : List Book) (data : BookCreate) (newId : String)
    (now : Nat) : Book × List Book :=
  match get_by_url books data.source_url with
  | some existing =>
    let b := bookFromCreate data existing.id now
    (b, updateFirst (fun bk => bk.source_url == data.source_url) (fun _ => b) books)
  | none =>
    let b := bookFromCreate data newId now
    (b, books ++ [b])

/-- The diff record returned by `ChangeDetector._detect_changes`. -/
structure ChangeInfo where
  changed_fields : List String
  old_values : List (String × FieldValue)
  new_values : List (String × FieldValue)
deriving DecidableEq

/-- `ChangeDetector._detect_changes`: field-by-field comparison, in source
order (name, the two prices with the `0.01` tolerance, availability, rating,
description, number of reviews); `None` when no field changed. -/
def detect_changes (old_book : Book) (new_book_data : BookCreate) :
    Option ChangeInfo :=
  let entries : List (String × FieldValue × FieldValue) :=
    (if old_book.name ≠ new_book_data.name then
      [("name", FieldValue.str old_book.name, FieldValue.str new_book_data.name)]
     else []) ++
    (if |old_book.price_including_tax - new_book_data.price_including_tax| > (1/100 : ℚ) then
      [("price_including_tax", FieldValue.rat old_book.price_including_tax,
        FieldValue.rat new_book_data.price_including_tax)]
     else []) ++
    (if |old_book.price_excluding_tax - new_book_data.price_excluding_tax| > (1/100 : ℚ) then
      [("price_excluding_tax", FieldValue.rat old_book.price_excluding_tax,
        FieldValue.rat new_book_data.price_excluding_tax)]
     else []) ++
    (if old_book.availability ≠ new_book_data.availability then
      [("availability", FieldValue.str old_book.availability,
        FieldValue.str new_book_data.availability)]
     else []) ++
    (if old_book.rating ≠ new_book_data.rating then
      [("rating", FieldValue.nat old_book.rating, FieldValue.nat new_book_data.rating)]
     else []) ++
    (if old_book.description ≠ new_book_data.description then
      [("description", FieldValue.optStr old_book.description,
        FieldValue.optStr new_book_data.description)]
     else []) ++
    (if old_book.number_of_reviews ≠ new_book_data.number_of_reviews then
      [("number_of_reviews", FieldValue.nat old_book.number_of_reviews,
        FieldValue.nat new_book_data.number_of_reviews)]
     else [])
  if entries.isEmpty then none
  else some
    { changed_fields := entries.map (fun e => e.1)
    , old_values := entries.map (fun e => (e.1, e.2.1))
    , new_values := entries.map (fun e => (e.1, e.2.2)) }

/-- `ChangeDetector._determine_change_type`: first-match priority over the
changed field names. -/
def determine_change_type (changed_fields : List String) : String :=
  if "price_including_tax" ∈ changed_fields ∨ "price_excluding_tax" ∈ changed_fields then
    "price_change"
  else if "availability" ∈ changed_fields then "availability_change"
  else if "name" ∈ changed_fields ∨ "description" ∈ changed_fields then "metadata_change"
  else if "rating" ∈ changed_fields then "rating_change"
  else "other_change"

/-- The persistent state touched by the change detector: the `books`
collection and the append-only `change_logs` collection. -/
structure DBState where
  books : List Book
  change_logs : List ChangeLogCreate
deriving DecidableEq

/-- `ChangeDetector.process_book`: look up by `source_url`; if absent, upsert
and emit a `new_book` change log (`changed_fields = {}`, a dict — validates);
else compare fingerprints — on a match refresh only the crawl timestamp and
return `None`; on a mismatch run the full diff, and if it reports changes
update the document and then construct the change log — which passes the list
`change_info["changed_fields"]` into the `Dict[str, Any]` field and therefore
raises (`Except.error`) after the book update but before the log append;
with an empty diff return `None` without touching the store. An uncaught
pydantic error propagates to the caller as the `Except.error` component. -/
def process_book (st : DBState) (data : BookCreate) (newId : String)
    (now : Nat) : Except String (Option ChangeLogCreate) × DBState :=
  match get_by_url st.books data.source_url with
  | none =>
    let r := upsert_by_url st.books data newId now
    match mkChangeLogCreate r.1.id (PyVal.pyDict []) [] (bookCreateDump data)
        "new_book" with
    | Except.ok cl =>
      (Except.ok (some cl),
        { books := r.2, change_logs := st.change_logs ++ [cl] })
    | Except.error e =>
      (Except.error e, { books := r.2, change_logs := st.change_logs })
  | some existing =>
    let new_hash := generate_data_hash (bookCreateDump data)
    if existing.data_hash = new_hash then
      (Except.ok none,
        { st with books := update_crawl_timestamp st.books existing.id now })
    else
      match detect_changes existing data with
      | some ci =>
        let books1 := update_full st.books existing.id data new_hash now
        match mkChangeLogCreate existing.id (PyVal.pyList ci.changed_fields)
            ci.old_values ci.new_values
            (determine_change_type ci.changed_fields) with
        | Except.ok cl =>
          (Except.ok (some cl),
            { books := books1, change_logs := st.change_logs ++ [cl] })
        | Except.error e =>
          (Except.error e, { books := books1, change_logs := st.change_logs })
      | none => (Except.ok none, st)

/-- The outcome of one attempt for `Crawler._fetch_with_retry`: an HTTP response
with a status code and body, a request timeout, or another request exception. -/
inductive Response where
  | httpStatus (code : Nat) (body : String)
  | timeout
  | connError
deriving DecidableEq

/-- The loop of `Crawler._fetch_with_retry` (`for attempt in range(max_attempts)`),
over the sequence of per-attempt outcomes. Returns the fetched body (or `none`)
together with the number of attempts actually issued: status 200 returns the
body at once, status 404 returns `none` at once, and every other status,
timeout or request exception retries (after a backoff sleep, irrelevant to the
result) until the attempts are exhausted. -/
def fetch_attempts (resp : Nat → Response) (max_attempts attempt : Nat) :
    Option String × Nat :=
  if _h : attempt < max_attempts then
    match resp attempt with
    | Response.httpStatus code body =>
      if code = 200 then (some body, attempt + 1)
      else if code = 404 then (none, attempt + 1)
      else fetch_attempts resp max_attempts (attempt + 1)
    | Response.timeout => fetch_attempts resp max_attempts (attempt + 1)
    | Response.connError => fetch_attempts resp max_attempts (attempt + 1)
  else (none, max_attempts)
termination_by max_attempts - attempt
decreasing_by all_goals omega

/-- `Crawler._fetch_with_retry` with the resolved `max_attempts`, starting at
attempt 0. -/
def fetch_with_retry (resp : Nat → Response) (max_attempts : Nat) :
    Option String × Nat :=
  fetch_attempts resp max_attempts 0

/-- A retryable per-attempt outcome in the sense of the spec: a status outside
2xx other than 404, a timeout, or another request failure. -/
def Retryable (r : Response) : Prop :=
  match r with
  | Response.httpStatus code _ => ¬(200 ≤ code ∧ code ≤ 299) ∧ code ≠ 404
  | Response.timeout => True
  | Response.connError => True

/-- A parsed page of the site: the category links its sidebar lists, the
detail-page (book) links it lists, and its optional next-page link.
A fetchable-and-parsable page is one the `Site` maps its URL to. -/
structure Page where
  categories : List String
  books : List String
  next : Option String
deriving DecidableEq

/-- A site graph: the configured base URL and the pages reachable by URL. -/
structure Site where
  base_url : String
  pages : List (String × Page)
deriving DecidableEq

/-- Fetch-and-parse of one URL: `some page` when the fetch succeeds and the
page parses, `none` when `_fetch_with_retry` exhausts its attempts or 404s. -/
def Site.fetch (s : Site) (u : String) : Option Page :=
  (s.pages.find? (fun p => p.1 == u)).map (fun p => p.2)

/-- The per-run crawler state: `visited_urls`, plus the trace of URLs
dispatched to `_fetch_with_retry` (in dispatch order). -/
structure CrawlState where
  visited : List String
  fetched : List String
deriving DecidableEq

/-- `Crawler.crawl_book`: skip if the URL is already visited, else mark it
visited, dispatch the fetch, and return the parsed book (modelled by its URL)
when fetch and parse succeed. -/
def crawl_book (site : Site) (st : CrawlState) (url : String) :
    Option String × CrawlState :=
  if url ∈ st.visited then (none, st)
  else
    let st1 : CrawlState := ⟨url :: st.visited, st.fetched ++ [url]⟩
    match site.fetch url with
    | none => (none, st1)
    | some _ => (some url, st1)

/-- The fan-out over the book links of one listing page
(`asyncio.gather` of `crawl_book` per link; the visited check-and-mark of each
task runs atomically before its first suspension point, so the fan-out is
modelled sequentially), keeping the successfully parsed books. -/
def crawl_books (site : Site) : List String → CrawlState → List String × CrawlState
  | [], st => ([], st)
  | u :: us, st =>
    let r := crawl_book site st u
    let rest := crawl_books site us r.2
    (match r.1 with
     | some b => b :: rest.1
     | none => rest.1, rest.2)

/-- The pagination loop of `Crawler.crawl_category` (`while current_url:`),
fuelled: `none` means the fuel ran out before the loop exited; `some` carries
the collected books and final state. Each iteration breaks on an
already-visited page, else marks it visited, fetches it (breaking on fetch
failure), fans out over its book links and advances to its next-page link. -/
def crawl_category_loop (site : Site) :
    Nat → Option String → List String → CrawlState →
    Option (List String × CrawlState)
  | 0, _, _, _ => none
  | _ + 1, none, acc, st => some (acc, st)
  | fuel + 1, some url, acc, st =>
    if url ∈ st.visited then some (acc, st)
    else
      let st1 : CrawlState := ⟨url :: st.visited, st.fetched ++ [url]⟩
      match site.fetch url with
      | none => some (acc, st1)
      | some page =>
        let r := crawl_books site page.books st1
        crawl_category_loop site fuel page.next (acc ++ r.1) r.2

/-- The URLs the site has pages for. -/
def siteUrls (site : Site) : List String := site.pages.map (fun p => p.1)

/-- Number of site URLs not yet visited: the loop measure. -/
def unvisitedCount (site : Site) (st : CrawlState) : Nat :=
  ((siteUrls site).toFinset \ st.visited.toFinset).card

/-- `Crawler.crawl_category`: run the pagination loop from the category URL;
the fuel `unvisitedCount + 1` is shown sufficient below, so the fallback for
exhausted fuel is never taken. -/
def crawl_category (site : Site) (st : CrawlState) (url : String) :
    List String × CrawlState :=
  (crawl_category_loop site (unvisitedCount site st + 1) (some url) [] st).getD
    ([], st)

/-- The sequential per-category loop of `Crawler.crawl_all`. -/
def crawl_categories (site : Site) : List String → CrawlState → List String × CrawlState
  | [], st => ([], st)
  | c :: cs, st =>
    let r := crawl_category site st c
    let rest := crawl_categories site cs r.2
    (r.1 ++ rest.1, rest.2)

/-- `Crawler.get_all_categories`: fetch the base URL (dispatched without any
visited-set check and without marking it visited) and return the category
links of the root page, or `[]` when the root fetch fails. -/
def get_all_categories (site : Site) (st : CrawlState) :
    List String × CrawlState :=
  let st1 : CrawlState := ⟨st.visited, st.fetched ++ [site.base_url]⟩
  match site.fetch site.base_url with
  | none => ([], st1)
  | some page => (page.categories, st1)

/-- `Crawler.crawl_all`: discover categories from the site root, then crawl
each category sequentially, concatenating the books. -/
def crawl_all (site : Site) (st : CrawlState) : List String × CrawlState :=
  let r := get_all_categories site st
  crawl_categories site r.1 r.2

/-- Does `k` occur as a contiguous substring of `t` (Python `k in t`)? -/
def hasSubstring (k : List Char) : List Char → Bool
  | [] => List.isPrefixOf k []
  | c :: rest => List.isPrefixOf k (c :: rest) || hasSubstring k rest

/-- The `rating_map` dict of `rating_to_int`, in insertion order. -/
def rating_map : List (List Char × Nat) :=
  [ ("zero".data, 0), ("one".data, 1), ("two".data, 2)
  , ("three".data, 3), ("four".data, 4), ("five".data, 5) ]

/-- The lookup loop of `rating_to_int`: first table word occurring as a
substring of the text wins; `0` when none occurs. -/
def ratingLookup : List (List Char × Nat) → List Char → Nat
  | [], _ => 0
  | kv :: rest, t => if hasSubstring kv.1 t then kv.2 else ratingLookup rest t

/-- `str.strip()`: drop leading and trailing whitespace. -/
def stripChars (s : List Char) : List Char :=
  ((s.dropWhile (fun c => c.isWhitespace)).reverse.dropWhile
    (fun c => c.isWhitespace)).reverse

/-- `rating_to_int` (app/crawler/utils.py): lowercase and strip the text, then
return the table value of the first `rating_map` word contained in it, else 0. -/
def rating_to_int (rating_text : List Char) : Nat :=
  ratingLookup rating_map (stripChars (rating_text.map Char.toLower))

/-! ### Concrete inputs used by counterexamples and witnesses -/

/-- A concrete freshly crawled record at `identity_url = "https://site/x"`. -/
def exBook : BookCreate :=
  { name := "X", description := none, category := "Fiction"
  , price_including_tax := 10, price_excluding_tax := 10
  , availability := "In stock", number_of_reviews := 0
  , image_url := none, rating := 3, source_url := "https://site/x"
  , raw_html := none }

/-- A site whose root fetch fails (no page at the base URL). -/
def siteRootDown : Site := ⟨"https://site/", []⟩

/-- A site whose root fetches fine but lists no categories. -/
def siteNoCategories : Site :=
  ⟨"https://site/", [("https://site/", ⟨[], [], none⟩)]⟩

/-- A site whose root page lists the base URL itself as a category link. -/
def siteRootLoop : Site :=
  ⟨"https://site/", [("https://site/", ⟨["https://site/"], [], none⟩)]⟩

/-- A category whose two pages point at each other: "next" of page B loops
back to page A. -/
def siteCyclic : Site :=
  ⟨"https://site/",
    [ ("https://site/catA", ⟨[], ["https://site/b1"], some "https://site/catB"⟩)
    , ("https://site/catB", ⟨[], ["https://site/b2"], some "https://site/catA"⟩)
    , ("https://site/b1", ⟨[], [], none⟩)
    , ("https://site/b2", ⟨[], [], none⟩) ]⟩

/-! ### C1 — new-item processing -/

/-- C1 counterexample: processing a never-seen item does emit a change record
with empty `changed_fields`, empty `old_values` and the full dump as
`new_values`, but its kind string is `"new_book"`, not `"new_item"` as the
claim states. -/
theorem c1_counterexample :
    ((process_book ⟨[], []⟩ exBook "id-1" 0).1.map
        (Option.map (fun cl => cl.change_type)))
        = Except.ok (some "new_book") ∧
      "new_book" ≠ "new_item" :=
  ⟨rfl, by decide⟩

/-- C1 (amended): for every item whose `source_url` has no persisted record,
`process_book` appends the item to the store and returns a change record with
`change_type = "new_book"` (the tag the code uses where the spec says new-item),
empty `changed_fields`, empty `old_values`, and `new_values` equal to the full
item dump; the record is appended to the change log. -/
theorem c1_new_book_change_record (st : DBState) (data : BookCreate)
    (newId : String) (now : Nat)
    (h : get_by_url st.books data.source_url = none) :
    ∃ cl, (process_book st data newId now).1 = Except.ok (some cl) ∧
      cl.change_type = "new_book" ∧
      cl.changed_fields = [] ∧
      cl.old_values = [] ∧
      cl.new_values = bookCreateDump data ∧
      (process_book st data newId now).2.books
        = st.books ++ [bookFromCreate data newId now] ∧
      (process_book st data newId now).2.change_logs
        = st.change_logs ++ [cl] := by
  simp only [process_book, upsert_by_url, h, mkChangeLogCreate, validateDict]
  refine ⟨_, rfl, ?_, ?_, ?_, ?_, ?_, ?_⟩ <;> first | rfl | trivial

/-- C1 witness: the amended theorem applied to the empty store and `exBook`. -/
theorem c1_witness :
    get_by_url (DBState.mk [] []).books exBook.source_url = none ∧
      ∃ cl, (process_book ⟨[], []⟩ exBook "id-1" 0).1 = Except.ok (some cl) ∧
        cl.change_type = "new_book" ∧
        cl.changed_fields = [] ∧
        cl.old_values = [] ∧
        cl.new_values = bookCreateDump exBook ∧
        (process_book ⟨[], []⟩ exBook "id-1" 0).2.books
          = [] ++ [bookFromCreate exBook "id-1" 0] ∧
        (process_book ⟨[], []⟩ exBook "id-1" 0).2.change_logs
          = [] ++ [cl] :=
  ⟨by decide, c1_new_book_change_record ⟨[], []⟩ exBook "id-1" 0 (by decide)⟩

/-! ### C2 — change-kind classification priority -/

/-- C2: `_determine_change_type` classifies by fixed first-match priority:
a changed price field gives `price_change`; otherwise changed availability
gives `availability_change`; otherwise changed name or description gives
`metadata_change`; otherwise changed rating gives `rating_change`; otherwise
`other_change`. In particular (witness) a list with both a price field and
availability is classified `price_change`. -/
theorem c2_change_type_priority (l : List String) :
    (("price_including_tax" ∈ l ∨ "price_excluding_tax" ∈ l) →
      determine_change_type l = "price_change") ∧
    ("price_including_tax" ∉ l → "price_excluding_tax" ∉ l →
      "availability" ∈ l → determine_change_type l = "availability_change") ∧
    ("price_including_tax" ∉ l → "price_excluding_tax" ∉ l →
      "availability" ∉ l → ("name" ∈ l ∨ "description" ∈ l) →
      determine_change_type l = "metadata_change") ∧
    ("price_including_tax" ∉ l → "price_excluding_tax" ∉ l →
      "availability" ∉ l → "name" ∉ l → "description" ∉ l → "rating" ∈ l →
      determine_change_type l = "rating_change") ∧
    ("price_including_tax" ∉ l → "price_excluding_tax" ∉ l →
      "availability" ∉ l → "name" ∉ l → "description" ∉ l → "rating" ∉ l →
      determine_change_type l = "other_change") := by
  unfold determine_change_type
  refine ⟨?_, ?_, ?_, ?_, ?_⟩ <;> intros <;> split_ifs <;> tauto

/-- C2 witness: price and availability both changed is classified
`price_change`, not `availability_change`. -/
theorem c2_witness :
    ("price_including_tax" ∈ (["price_including_tax", "availability"] : List String) ∨
      "price_excluding_tax" ∈ (["price_including_tax", "availability"] : List String)) ∧
    determine_change_type ["price_including_tax", "availability"] = "price_change" :=
  ⟨Or.inl (by decide),
    (c2_change_type_priority ["price_including_tax", "availability"]).1
      (Or.inl (by decide))⟩

/-! ### C5 — category-discovery failure -/

/-- C5 counterexample: on a site whose root fetch fails, category discovery
yields no categories, yet `crawl_all` completes normally, returning the plain
empty book list — the very same value a successful run over a site with zero
categories returns. No run-level failure value distinct from per-item
failures is surfaced to the caller. -/
theorem c5_counterexample :
    Site.fetch siteRootDown siteRootDown.base_url = none ∧
      crawl_all siteRootDown ⟨[], []⟩ = ([], ⟨[], ["https://site/"]⟩) ∧
      crawl_all siteRootDown ⟨[], []⟩ = crawl_all siteNoCategories ⟨[], []⟩ := by
  decide

/-- C5 (amended): when the root fetch fails, `get_all_categories` returns the
empty category list and `crawl_all` returns normally with an empty book list
(after dispatching only the root fetch); the run is not aborted with any
failure value. -/
theorem c5_discovery_failure_empty_run (site : Site) (st : CrawlState)
    (h : site.fetch site.base_url = none) :
    crawl_all site st = ([], ⟨st.visited, st.fetched ++ [site.base_url]⟩) := by
  simp only [crawl_all, get_all_categories, h, crawl_categories]

/-- C5 witness: the amended theorem at the concrete root-down site. -/
theorem c5_witness :
    Site.fetch siteRootDown siteRootDown.base_url = none ∧
      crawl_all siteRootDown ⟨[], []⟩
        = ([], ⟨[], [] ++ [siteRootDown.base_url]⟩) :=
  ⟨by decide, c5_discovery_failure_empty_run siteRootDown ⟨[], []⟩ (by decide)⟩

/-! ### C9 — star-rating mapping -/

/-- C9 counterexample: `"stone"` is none of the six table words, yet
`rating_to_int` maps it to 1 (the table is matched by substring containment,
`"one"` occurs inside `"stone"`), contradicting "returns 0 for every
unrecognized string". -/
theorem c9_counterexample :
    (∀ kv ∈ rating_map, "stone".data ≠ kv.1) ∧
      rating_to_int "stone".data = 1 := by
  decide

/-- The lookup loop never exceeds the largest table value. -/
theorem ratingLookup_le_five :
    ∀ (m : List (List Char × Nat)) (t : List Char),
      (∀ kv ∈ m, kv.2 ≤ 5) → ratingLookup m t ≤ 5
  | [], t, _ => by rw [ratingLookup]; decide
  | kv :: rest, t, h => by
    rw [ratingLookup]
    split_ifs
    · exact h kv (List.mem_cons_self kv rest)
    · exact ratingLookup_le_five rest t (fun x hx => h x (List.mem_cons_of_mem _ hx))

/-- The lookup loop falls through to 0 when no key occurs in the text. -/
theorem ratingLookup_no_key :
    ∀ (m : List (List Char × Nat)) (t : List Char),
      (∀ kv ∈ m, hasSubstring kv.1 t = false) → ratingLookup m t = 0
  | [], t, _ => by rw [ratingLookup]
  | kv :: rest, t, h => by
    rw [ratingLookup]
    rw [h kv (List.mem_cons_self kv rest)]
    simp only [Bool.false_eq_true, if_false]
    exact ratingLookup_no_key rest t (fun x hx => h x (List.mem_cons_of_mem _ hx))

/-- C9 (amended): `rating_to_int` lowercases and strips the text and returns
the value of the first table word (in order zero..five) occurring as a
substring; each exact table word maps to its own value, an input containing
no table word as a substring maps to 0, and the result always lies in
`[0, 5]`. -/
theorem c9_rating_to_int_spec :
    (∀ s : List Char, rating_to_int s ≤ 5) ∧
    (rating_to_int "zero".data = 0 ∧ rating_to_int "one".data = 1 ∧
      rating_to_int "two".data = 2 ∧ rating_to_int "three".data = 3 ∧
      rating_to_int "four".data = 4 ∧ rating_to_int "five".data = 5) ∧
    (∀ s : List Char,
      (∀ kv ∈ rating_map,
        hasSubstring kv.1 (stripChars (s.map Char.toLower)) = false) →
      rating_to_int s = 0) := by
  refine ⟨fun s => ?_, by decide, fun s h => ?_⟩
  · exact ratingLookup_le_five rating_map _ (by decide)
  · exact ratingLookup_no_key rating_map _ h

/-! ### C4 — fingerprint scope and the fast path -/

/-- The hash of a full `model_dump` is exactly the record of the five
significant fields of the dumped data. -/
theorem generate_data_hash_dump (data : BookCreate) :
    generate_data_hash (bookCreateDump data) =
      { availability := FieldValue.str data.availability
      , name := FieldValue.str data.name
      , price_excluding_tax := FieldValue.rat data.price_excluding_tax
      , price_including_tax := FieldValue.rat data.price_including_tax
      , rating := FieldValue.nat data.rating } := rfl

/-- C4: the content fingerprint covers exactly name, both prices,
availability and rating, so a stored book (whose `data_hash` is consistent
with its own fields, as every repository write makes it) and a re-crawled
record agreeing on those five fields — in particular differing only in
description and/or review count — have equal fingerprints, and `process_book`
takes the fast path: it returns `None` and emits no change record. -/
theorem c4_fingerprint_ignores_description (st : DBState) (data : BookCreate)
    (b : Book) (newId : String) (now : Nat)
    (hfind : get_by_url st.books data.source_url = some b)
    (hconsist : b.data_hash = sigOfBook b)
    (hname : b.name = data.name)
    (hpi : b.price_including_tax = data.price_including_tax)
    (hpe : b.price_excluding_tax = data.price_excluding_tax)
    (hav : b.availability = data.availability)
    (hrat : b.rating = data.rating) :
    generate_data_hash (bookCreateDump data) = b.data_hash ∧
      (process_book st data newId now).1 = Except.ok none ∧
      (process_book st data newId now).2.change_logs = st.change_logs := by
  have hcond : b.data_hash = generate_data_hash (bookCreateDump data) := by
    rw [generate_data_hash_dump, hconsist]
    simp [sigOfBook, hname, hpi, hpe, hav, hrat]
  refine ⟨hcond.symm, ?_, ?_⟩ <;> simp [process_book, hfind, hcond]

/-- The stored book of the concrete fast-path scenario. -/
def exStoredBook : Book := bookFromCreate exBook "id-1" 0

/-- The concrete store holding only `exStoredBook`. -/
def exStore : DBState := ⟨[exStoredBook], []⟩

/-- A re-crawl of `exBook` that differs only in description and review count. -/
def exBookDescChanged : BookCreate :=
  { exBook with description := some "changed description", number_of_reviews := 7 }

/-- C4 witness: the theorem at the concrete description-only edit. -/
theorem c4_witness :
    (get_by_url exStore.books exBookDescChanged.source_url = some exStoredBook ∧
      exStoredBook.data_hash = sigOfBook exStoredBook ∧
      exStoredBook.name = exBookDescChanged.name ∧
      exStoredBook.price_including_tax = exBookDescChanged.price_including_tax ∧
      exStoredBook.price_excluding_tax = exBookDescChanged.price_excluding_tax ∧
      exStoredBook.availability = exBookDescChanged.availability ∧
      exStoredBook.rating = exBookDescChanged.rating) ∧
    (generate_data_hash (bookCreateDump exBookDescChanged) = exStoredBook.data_hash ∧
      (process_book exStore exBookDescChanged "id-2" 1).1 = Except.ok none ∧
      (process_book exStore exBookDescChanged "id-2" 1).2.change_logs
        = exStore.change_logs) :=
  ⟨by decide,
    c4_fingerprint_ignores_description exStore exBookDescChanged exStoredBook
      "id-2" 1 (by decide) (by decide) (by decide) (by decide) (by decide)
      (by decide) (by decide)⟩

/-! ### C10 — fingerprint mismatch with an empty diff writes nothing -/

/-- C10: when the stored fingerprint differs from the recomputed one but the
field-by-field diff finds nothing (each price within the 0.01 tolerance, all
other tracked fields equal), `process_book` returns `None` and leaves the
whole store untouched — the stored book keeps its stale fingerprint and old
crawl timestamp, so a subsequent crawl repeats the full diff rather than
taking the fast path. -/
theorem c10_empty_diff_no_write (st : DBState) (data : BookCreate) (b : Book)
    (newId : String) (now : Nat)
    (hfind : get_by_url st.books data.source_url = some b)
    (hhash : b.data_hash ≠ generate_data_hash (bookCreateDump data))
    (hname : b.name = data.name)
    (hpi : |b.price_including_tax - data.price_including_tax| ≤ 1/100)
    (hpe : |b.price_excluding_tax - data.price_excluding_tax| ≤ 1/100)
    (hav : b.availability = data.availability)
    (hrat : b.rating = data.rating)
    (hdesc : b.description = data.description)
    (hrev : b.number_of_reviews = data.number_of_reviews) :
    detect_changes b data = none ∧
      process_book st data newId now = (Except.ok none, st) := by
  have hdet : detect_changes b data = none := by
    unfold detect_changes
    simp [hname, hav, hrat, hdesc, hrev, not_lt.mpr hpi, not_lt.mpr hpe]
    refine ⟨?_, ?_⟩ <;> rw [← one_div] <;> assumption
  refine ⟨hdet, ?_⟩
  simp [process_book, hfind, hhash, hdet]

/-- A re-crawl of `exBook` whose price moved by half the tolerance. -/
def exBookPriceNudged : BookCreate :=
  { exBook with price_including_tax := 10 + 1/200 }

/-- The stored price differs from the nudged price. -/
theorem exPriceNudged_hash_ne :
    exStoredBook.data_hash ≠ generate_data_hash (bookCreateDump exBookPriceNudged) := by
  rw [generate_data_hash_dump]
  intro h
  have h10 : (10 : ℚ) = 10 + 1/200 := congrArg
    (fun s => match s.price_including_tax with
      | FieldValue.rat q => q
      | _ => 0) h
  norm_num at h10

/-- The nudged price stays within the 0.01 tolerance of the stored one. -/
theorem exPriceNudged_within_tolerance :
    |exStoredBook.price_including_tax - exBookPriceNudged.price_including_tax|
      ≤ 1/100 := by
  show |(10 : ℚ) - (10 + 1/200)| ≤ 1/100
  rw [show (10 : ℚ) - (10 + 1/200) = -(1/200) by norm_num, abs_neg,
    abs_of_nonneg (by norm_num)]
  norm_num

/-- C10 witness: the theorem at the concrete half-tolerance price nudge. -/
theorem c10_witness :
    (get_by_url exStore.books exBookPriceNudged.source_url = some exStoredBook ∧
      exStoredBook.data_hash ≠ generate_data_hash (bookCreateDump exBookPriceNudged) ∧
      |exStoredBook.price_including_tax - exBookPriceNudged.price_including_tax|
        ≤ 1/100) ∧
    (detect_changes exStoredBook exBookPriceNudged = none ∧
      process_book exStore exBookPriceNudged "id-2" 1 = (Except.ok none, exStore)) :=
  ⟨⟨rfl, exPriceNudged_hash_ne, exPriceNudged_within_tolerance⟩,
    c10_empty_diff_no_write exStore exBookPriceNudged exStoredBook "id-2" 1
      rfl exPriceNudged_hash_ne rfl exPriceNudged_within_tolerance
      (by rw [show exBookPriceNudged.price_excluding_tax = exStoredBook.price_excluding_tax from rfl, sub_self, abs_zero]; norm_num)
      rfl rfl rfl rfl⟩

/-! ### C3 — idempotent processing (changed branch raises) -/

/-- A re-crawl of `exBook` whose availability actually changed. -/
def exBookAvailChanged : BookCreate :=
  { exBook with availability := "Out of stock" }

/-- C3 (code bug): processing a genuinely changed item (availability edited)
does not return a ChangeRecord — the book update lands and then the
ChangeLogCreate construction raises a pydantic ValidationError, because the
changed-field-name list is passed into the `Dict[str, Any]` field
`changed_fields`, so the first call surfaces the error; since the update with
the new fingerprint did land, the second call takes the fast path and returns
`None` exactly as the claim says. -/
theorem c3_changed_item_raises :
    (process_book exStore exBookAvailChanged "id-2" 1).1
        = Except.error "ValidationError" ∧
      (process_book (process_book exStore exBookAvailChanged "id-2" 1).2
        exBookAvailChanged "id-3" 2).1 = Except.ok none := by
  have hfind : get_by_url exStore.books exBookAvailChanged.source_url
      = some exStoredBook := rfl
  have hne : exStoredBook.data_hash
      ≠ generate_data_hash (bookCreateDump exBookAvailChanged) := by decide
  have hp1 : ((100 : ℚ)⁻¹
      < |exStoredBook.price_including_tax - exBookAvailChanged.price_including_tax|)
      = False := by
    apply eq_false
    show ¬ ((100 : ℚ)⁻¹ < |(10 : ℚ) - 10|)
    rw [sub_self, abs_zero]
    norm_num
  have hp2 : ((100 : ℚ)⁻¹
      < |exStoredBook.price_excluding_tax - exBookAvailChanged.price_excluding_tax|)
      = False := by
    apply eq_false
    show ¬ ((100 : ℚ)⁻¹ < |(10 : ℚ) - 10|)
    rw [sub_self, abs_zero]
    norm_num
  have hnm : exStoredBook.name = exBookAvailChanged.name := rfl
  have hrt : exStoredBook.rating = exBookAvailChanged.rating := rfl
  have hds : exStoredBook.description = exBookAvailChanged.description := rfl
  have hrv : exStoredBook.number_of_reviews
      = exBookAvailChanged.number_of_reviews := rfl
  have hav : exStoredBook.availability ≠ exBookAvailChanged.availability := by
    decide
  have hdet : detect_changes exStoredBook exBookAvailChanged =
      some { changed_fields := ["availability"]
           , old_values :=
               [("availability", FieldValue.str exStoredBook.availability)]
           , new_values :=
               [("availability", FieldValue.str exBookAvailChanged.availability)] } := by
    unfold detect_changes
    simp [hnm, hrt, hds, hrv, hav, hp1, hp2]
  have hstep : process_book exStore exBookAvailChanged "id-2" 1 =
      (Except.error "ValidationError",
        { books := update_full exStore.books exStoredBook.id exBookAvailChanged
            (generate_data_hash (bookCreateDump exBookAvailChanged)) 1
        , change_logs := exStore.change_logs }) := by
    simp only [process_book, hfind, if_neg hne, hdet, mkChangeLogCreate,
      validateDict]
  refine ⟨by rw [hstep], ?_⟩
  rw [hstep]
  have hfind2 : get_by_url
      (update_full exStore.books exStoredBook.id exBookAvailChanged
        (generate_data_hash (bookCreateDump exBookAvailChanged)) 1)
      exBookAvailChanged.source_url
      = some (applyFull exBookAvailChanged
          (generate_data_hash (bookCreateDump exBookAvailChanged)) 1
          exStoredBook) := rfl
  simp only [process_book, hfind2]
  rw [if_pos
    (show (applyFull exBookAvailChanged
        (generate_data_hash (bookCreateDump exBookAvailChanged)) 1
        exStoredBook).data_hash
      = generate_data_hash (bookCreateDump exBookAvailChanged) from rfl)]

/-! ### C6 — retry bound -/

/-- Exhaustion lemma for the retry loop: if the outcome of every remaining attempt
is retryable, the loop runs through all of them and reports failure with the
full attempt count. -/
theorem fetch_attempts_exhausts (resp : Nat → Response) (n : Nat) :
    ∀ (k attempt : Nat), n = attempt + k →
      (∀ i, attempt ≤ i → i < n → Retryable (resp i)) →
      fetch_attempts resp n attempt = (none, n)
  | 0, attempt, hk, _ => by
    rw [fetch_attempts, dif_neg (by omega)]
  | k + 1, attempt, hk, hret => by
    have hlt : attempt < n := by omega
    have hr := hret attempt le_rfl hlt
    rw [fetch_attempts, dif_pos hlt]
    cases hresp : resp attempt with
    | httpStatus code body =>
      rw [hresp] at hr
      simp only [Retryable] at hr
      have hc200 : code ≠ 200 := by
        rintro rfl; exact hr.1 ⟨by omega, by omega⟩
      simp only [if_neg hc200, if_neg hr.2]
      exact fetch_attempts_exhausts resp n k (attempt + 1) (by omega)
        (fun i hi hin => hret i (by omega) hin)
    | timeout =>
      exact fetch_attempts_exhausts resp n k (attempt + 1) (by omega)
        (fun i hi hin => hret i (by omega) hin)
    | connError =>
      exact fetch_attempts_exhausts resp n k (attempt + 1) (by omega)
        (fun i hi hin => hret i (by omega) hin)

/-- C6: a URL whose every attempt yields a retryable outcome (a status
outside 2xx other than 404, a timeout, or another request failure) is
attempted exactly `max_attempts` times — no more — and the fetch then returns
the failure value `none`. -/
theorem c6_retry_bound (resp : Nat → Response) (max_attempts : Nat)
    (h : ∀ i, i < max_attempts → Retryable (resp i)) :
    fetch_with_retry resp max_attempts = (none, max_attempts) :=
  fetch_attempts_exhausts resp max_attempts max_attempts 0 (by omega)
    (fun i _ hin => h i hin)

/-- C6 witness: three attempts against a URL that always times out. -/
theorem c6_witness :
    (∀ i, i < 3 → Retryable ((fun _ => Response.timeout) i)) ∧
      fetch_with_retry (fun _ => Response.timeout) 3 = (none, 3) :=
  ⟨fun _ _ => trivial,
    c6_retry_bound (fun _ => Response.timeout) 3 (fun _ _ => trivial)⟩

/-- C9 witness: the no-table-word clause of the theorem at `"junk"`. -/
theorem c9_witness :
    (∀ kv ∈ rating_map,
      hasSubstring kv.1 (stripChars ("junk".data.map Char.toLower)) = false) ∧
    rating_to_int "junk".data = 0 :=
  ⟨by decide, c9_rating_to_int_spec.2.2 "junk".data (by decide)⟩

/-! ### C7/C8 — visited-set dedup and pagination termination -/

/-- The empty per-run crawler state. -/
def emptyCrawl : CrawlState := ⟨[], []⟩

/-- The trace invariant of one crawl run: no URL was dispatched twice, and
every dispatched URL has been marked visited. -/
def TraceInv (st : CrawlState) : Prop :=
  st.fetched.Nodup ∧ ∀ u ∈ st.fetched, u ∈ st.visited

/-- Marking a not-yet-visited URL visited and dispatching it preserves the
trace invariant. -/
theorem mark_inv (st : CrawlState) (url : String) (hv : url ∉ st.visited)
    (h : TraceInv st) : TraceInv ⟨url :: st.visited, st.fetched ++ [url]⟩ := by
  obtain ⟨hnd, hsub⟩ := h
  have hnotmem : url ∉ st.fetched := fun hmem => hv (hsub url hmem)
  constructor
  · exact ((List.perm_append_singleton url st.fetched).nodup_iff).mpr
      (List.nodup_cons.mpr ⟨hnotmem, hnd⟩)
  · intro x hx
    rcases List.mem_append.mp hx with hx1 | hx2
    · exact List.mem_cons_of_mem _ (hsub x hx1)
    · rw [List.mem_singleton] at hx2
      subst hx2
      exact List.mem_cons_self _ _

/-- `crawl_book` only grows the visited set. -/
theorem crawl_book_visited_mono (site : Site) (st : CrawlState) (u x : String)
    (hx : x ∈ st.visited) : x ∈ (crawl_book site st u).2.visited := by
  unfold crawl_book
  split_ifs with hv
  · exact hx
  · cases hfetch : site.fetch u
    · exact List.mem_cons_of_mem _ hx
    · exact List.mem_cons_of_mem _ hx

/-- `crawl_book` preserves the trace invariant. -/
theorem crawl_book_inv (site : Site) (st : CrawlState) (u : String)
    (h : TraceInv st) : TraceInv (crawl_book site st u).2 := by
  unfold crawl_book
  split_ifs with hv
  · exact h
  · cases hfetch : site.fetch u
    · exact mark_inv st u hv h
    · exact mark_inv st u hv h

/-- The per-page fan-out only grows the visited set. -/
theorem crawl_books_visited_mono (site : Site) :
    ∀ (us : List String) (st : CrawlState) (x : String),
      x ∈ st.visited → x ∈ (crawl_books site us st).2.visited
  | [], _, _, hx => hx
  | u :: us, st, x, hx =>
    crawl_books_visited_mono site us (crawl_book site st u).2 x
      (crawl_book_visited_mono site st u x hx)

/-- The per-page fan-out preserves the trace invariant. -/
theorem crawl_books_inv (site : Site) :
    ∀ (us : List String) (st : CrawlState),
      TraceInv st → TraceInv (crawl_books site us st).2
  | [], _, h => h
  | u :: us, st, h =>
    crawl_books_inv site us (crawl_book site st u).2
      (crawl_book_inv site st u h)

/-- The pagination loop preserves the trace invariant whenever it completes. -/
theorem crawl_category_loop_inv (site : Site) :
    ∀ (fuel : Nat) (cur : Option String) (acc : List String) (st : CrawlState)
      (r : List String × CrawlState),
      crawl_category_loop site fuel cur acc st = some r →
      TraceInv st → TraceInv r.2
  | 0, _, _, _, _ => fun h _ => Option.noConfusion h
  | fuel + 1, none, acc, st, r => fun h hinv => by
    have heq : (acc, st) = r := by injection h
    rw [← heq]
    exact hinv
  | fuel + 1, some url, acc, st, r => fun h hinv => by
    rw [crawl_category_loop] at h
    split_ifs at h with hv
    · have heq : (acc, st) = r := by injection h
      rw [← heq]
      exact hinv
    · cases hfetch : site.fetch url with
      | none =>
        rw [hfetch] at h
        have heq : (acc, (⟨url :: st.visited, st.fetched ++ [url]⟩ : CrawlState)) = r := by
          injection h
        rw [← heq]
        exact mark_inv st url hv hinv
      | some page =>
        rw [hfetch] at h
        exact crawl_category_loop_inv site fuel page.next _ _ r h
          (crawl_books_inv site page.books _ (mark_inv st url hv hinv))

/-- Growing the visited set cannot increase the number of unvisited site
URLs. -/
theorem unvisitedCount_mono (site : Site) (st st2 : CrawlState)
    (hsub : ∀ x ∈ st.visited, x ∈ st2.visited) :
    unvisitedCount site st2 ≤ unvisitedCount site st := by
  apply Finset.card_le_card
  intro x hx
  rw [Finset.mem_sdiff] at hx ⊢
  refine ⟨hx.1, fun hv => hx.2 ?_⟩
  rw [List.mem_toFinset] at hv ⊢
  exact hsub x hv

/-- Newly visiting a site URL strictly decreases the number of unvisited site
URLs. -/
theorem unvisitedCount_strict (site : Site) (st st2 : CrawlState)
    (url : String) (hurl_site : url ∈ siteUrls site)
    (hurl_old : url ∉ st.visited) (hurl_new : url ∈ st2.visited)
    (hsub : ∀ x ∈ st.visited, x ∈ st2.visited) :
    unvisitedCount site st2 < unvisitedCount site st := by
  apply Finset.card_lt_card
  rw [Finset.ssubset_iff_of_subset]
  · refine ⟨url, ?_, ?_⟩
    · rw [Finset.mem_sdiff, List.mem_toFinset, List.mem_toFinset]
      exact ⟨hurl_site, hurl_old⟩
    · rw [Finset.mem_sdiff, List.mem_toFinset, List.mem_toFinset]
      exact fun hcontra => hcontra.2 hurl_new
  · intro x hx
    rw [Finset.mem_sdiff] at hx ⊢
    rw [List.mem_toFinset] at hx ⊢
    refine ⟨hx.1, fun hv => hx.2 ?_⟩
    rw [List.mem_toFinset] at hv ⊢
    exact hsub x hv

/-- A successfully fetched URL is one of the URLs of the site. -/
theorem fetch_some_mem (site : Site) (url : String) (page : Page)
    (hfetch : site.fetch url = some page) : url ∈ siteUrls site := by
  unfold Site.fetch at hfetch
  cases hfind : site.pages.find? (fun p => p.1 == url) with
  | none => rw [hfind] at hfetch; exact Option.noConfusion hfetch
  | some kv =>
    have hp := List.find?_some hfind
    have hm := List.mem_of_find?_eq_some hfind
    unfold siteUrls
    exact List.mem_map.mpr ⟨kv, hm, by simpa using hp⟩

/-- With fuel exceeding the number of unvisited site URLs, the pagination
loop always completes (never exhausts its fuel): each iteration that
continues marks a fresh site URL visited, and the visited-set guard stops
every other iteration, cyclic next pointers included. -/
theorem crawl_category_loop_total (site : Site) :
    ∀ (fuel : Nat) (cur : Option String) (acc : List String) (st : CrawlState),
      unvisitedCount site st < fuel →
      (crawl_category_loop site fuel cur acc st).isSome = true
  | 0, _, _, _ => fun h => absurd h (by omega)
  | fuel + 1, none, acc, st => fun _ => by rw [crawl_category_loop]; rfl
  | fuel + 1, some url, acc, st => fun hfuel => by
    rw [crawl_category_loop]
    split_ifs with hv
    · rfl
    · cases hfetch : site.fetch url with
      | none => rfl
      | some page =>
        apply crawl_category_loop_total site fuel
        have hmem : url ∈ siteUrls site := fetch_some_mem site url page hfetch
        have hsub1 : ∀ x ∈ st.visited,
            x ∈ (crawl_books site page.books
              ⟨url :: st.visited, st.fetched ++ [url]⟩).2.visited :=
          fun x hx => crawl_books_visited_mono site page.books _ x
            (List.mem_cons_of_mem _ hx)
        have hurlmem : url ∈ (crawl_books site page.books
            ⟨url :: st.visited, st.fetched ++ [url]⟩).2.visited :=
          crawl_books_visited_mono site page.books _ url
            (List.mem_cons_self _ _)
        have hlt := unvisitedCount_strict site st _ url hmem hv hurlmem hsub1
        omega

/-- C8: pagination traversal of a category terminates on every site graph:
with fuel exceeding the unvisited-URL count the loop reaches a normal exit
(`some` result) — the visited set is consulted before following any next-page
link, so a cyclic next pointer ends the walk of that category instead of looping
forever. -/
theorem c8_pagination_termination (site : Site) (st : CrawlState)
    (url : String) (fuel : Nat) (h : unvisitedCount site st < fuel) :
    ∃ r, crawl_category_loop site fuel (some url) [] st = some r :=
  Option.isSome_iff_exists.mp
    (crawl_category_loop_total site fuel (some url) [] st h)

/-- C8 witness: the loop on the synthetic two-page category whose "next"
pointers form a cycle completes rather than looping. -/
theorem c8_witness :
    unvisitedCount siteCyclic emptyCrawl < 5 ∧
      ∃ r, crawl_category_loop siteCyclic 5 (some "https://site/catA") []
        emptyCrawl = some r :=
  ⟨by decide,
    c8_pagination_termination siteCyclic emptyCrawl "https://site/catA" 5
      (by decide)⟩

/-- `crawl_category` preserves the trace invariant. -/
theorem crawl_category_inv (site : Site) (st : CrawlState) (url : String)
    (h : TraceInv st) : TraceInv (crawl_category site st url).2 := by
  unfold crawl_category
  cases hr : crawl_category_loop site (unvisitedCount site st + 1) (some url)
      [] st with
  | none => exact h
  | some r => exact crawl_category_loop_inv site _ _ _ _ r hr h

/-- The sequential category walk preserves the trace invariant. -/
theorem crawl_categories_inv (site : Site) :
    ∀ (urls : List String) (st : CrawlState),
      TraceInv st → TraceInv (crawl_categories site urls st).2
  | [], _, h => h
  | c :: cs, st, h =>
    crawl_categories_inv site cs (crawl_category site st c).2
      (crawl_category_inv site st c h)

/-- C7 counterexample: the root fetch of `get_all_categories` bypasses the
visited set, so on a site whose root page lists the base URL itself as a
category, `crawl_all` dispatches the same URL twice in one run — the claim
"every URL is fetched at most once, the visited set is checked before each
fetch" fails. -/
theorem c7_counterexample :
    (crawl_all siteRootLoop emptyCrawl).2.fetched
        = ["https://site/", "https://site/"] ∧
      ¬ (crawl_all siteRootLoop emptyCrawl).2.fetched.Nodup := by
  decide

/-- C7 (amended): within the category/detail traversal (everything after
category discovery) every URL is dispatched at most once: starting from a
state whose dispatch trace is duplicate-free and covered by the visited set,
the trace stays duplicate-free (and covered) across the whole categories
walk. Only the root fetch of `get_all_categories` bypasses this guard. -/
theorem c7_traversal_dedup (site : Site) (urls : List String)
    (st : CrawlState) (hnd : st.fetched.Nodup)
    (hsub : ∀ u ∈ st.fetched, u ∈ st.visited) :
    (crawl_categories site urls st).2.fetched.Nodup ∧
      ∀ u ∈ (crawl_categories site urls st).2.fetched,
        u ∈ (crawl_categories site urls st).2.visited :=
  crawl_categories_inv site urls st ⟨hnd, hsub⟩

/-- C7 witness: the amended theorem on the cyclic synthetic site from the
empty state. -/
theorem c7_witness :
    ((emptyCrawl.fetched.Nodup) ∧
      (∀ u ∈ emptyCrawl.fetched, u ∈ emptyCrawl.visited)) ∧
    ((crawl_categories siteCyclic ["https://site/catA"] emptyCrawl).2.fetched.Nodup ∧
      ∀ u ∈ (crawl_categories siteCyclic ["https://site/catA"] emptyCrawl).2.fetched,
        u ∈ (crawl_categories siteCyclic ["https://site/catA"] emptyCrawl).2.visited) :=
  ⟨⟨List.nodup_nil, fun u hu => absurd hu (List.not_mem_nil u)⟩,
    c7_traversal_dedup siteCyclic ["https://site/catA"] emptyCrawl
      List.nodup_nil (fun u hu => absurd hu (List.not_mem_nil u))⟩

end Scrape
